import Mathlib

/-!
Verification development for `stylegen` (`src/convert-theme-rgb.js`), a CLI
tool converting a Material Design theme JSON into CSS custom properties.

The logical core is embedded shallowly:
* `hexToRgbValues` models the JS function of the same name (lines 46-67),
  including the exact semantics of JavaScript `parseInt(s, 16)` (which
  returns `NaN` — here `none` — instead of throwing on non-numeric input).
* `createTonalPaletteFrom100` models the palette builder (lines 77-93).  The
  two calls into the external `chroma-js` library
  (`chroma.scale(['#FFFFFF', base]).mode('lch').colors(3)` and
  `chroma.scale([base, '#09090b']).mode('lch').padding([0.1, 0.25]).colors(10)`)
  are not code of this repository; they are taken as parameters
  `lighterScale` / `darkerScale` returning `Except Unit (List α)`
  (`Except.error` models a thrown exception).  The function is polymorphic in
  the color representation so that the same embedded code can be run both on
  hex strings and on a spec-modelled lightness channel.
* `toKebabCase`, the per-role CSS emission and the assembly done by the CLI
  `action` callback (lines 118-218) are embedded as pure list-of-lines
  producers.
-/

/-- The set of JavaScript string-whitespace characters stripped by
`parseInt` (ES `StrWhiteSpaceChar`), by code point: TAB, LF, VT, FF, CR,
SP, NBSP, LS, PS, ZWNBSP.  (Other Unicode `Zs` characters also qualify in
full ES but never occur in the inputs treated here.) -/
def jsSpace (c : Char) : Bool :=
  c.toNat = 9 || c.toNat = 10 || c.toNat = 11 || c.toNat = 12 || c.toNat = 13 ||
  c.toNat = 32 || c.toNat = 160 || c.toNat = 8232 || c.toNat = 8233 || c.toNat = 65279

/-- Value of a base-16 digit character as used by JS `parseInt(_, 16)`:
`'0'..'9'` (code 48-57), `'a'..'f'` (97-102), `'A'..'F'` (65-70). -/
def hexDigitVal (c : Char) : Option Nat :=
  if 48 ≤ c.toNat ∧ c.toNat ≤ 57 then some (c.toNat - 48)
  else if 97 ≤ c.toNat ∧ c.toNat ≤ 102 then some (c.toNat - 87)
  else if 65 ≤ c.toNat ∧ c.toNat ≤ 70 then some (c.toNat - 55)
  else none

/-- JavaScript `parseInt(s, 16)` on the characters of `s`: skip leading
whitespace, optional sign, optional `0x`/`0X`, then the longest run of hex
digits; `none` models the `NaN` result when no digit is found.  `parseInt`
never throws. -/
def parseIntHexChars (cs : List Char) : Option Int :=
  let cs1 := cs.dropWhile jsSpace
  let neg : Bool := cs1.head? = some '-'
  let cs2 := if cs1.head? = some '-' ∨ cs1.head? = some '+' then cs1.tail else cs1
  let cs3 := match cs2 with
    | c :: x :: rest => if c = '0' ∧ (x = 'x' ∨ x = 'X') then rest else cs2
    | _ => cs2
  let digits := cs3.takeWhile (fun c => (hexDigitVal c).isSome)
  if digits.isEmpty then none
  else
    some (if neg then - (digits.foldl (fun acc c => 16 * acc + (hexDigitVal c).getD 0) 0 : Nat)
          else (digits.foldl (fun acc c => 16 * acc + (hexDigitVal c).getD 0) 0 : Nat))

/-- How a JS template literal renders a `parseInt` result: `NaN` prints as
`"NaN"`, integers in decimal. -/
def jsNumStr : Option Int → String
  | none => "NaN"
  | some i => toString i

/-- Model of `hex.startsWith(hash) ? hex.slice(1) : hex` (line 49),
the optional-`#`-prefix strip. -/
def cleanHexChars (cs : List Char) : List Char :=
  if cs.head? = some '#' then cs.tail else cs

/-- Body of `hexToRgbValues` for a string argument, on its character list
(lines 49-66).  3-digit codes expand by doubling each digit; any cleaned
length other than 6 falls back to `"0, 0, 0"`.  The `try/catch` around
`parseInt` is dead code in JS (`parseInt` returns `NaN` rather than
throwing), so no exception path exists here either. -/
def hexToRgbChars (cs : List Char) : String :=
  if cs.isEmpty then "0, 0, 0"
  else
    let clean := cleanHexChars cs
    let clean2 := if clean.length = 3 then clean.flatMap (fun c => [c, c]) else clean
    if clean2.length ≠ 6 then "0, 0, 0"
    else
      let r := parseIntHexChars (clean2.take 2)
      let g := parseIntHexChars ((clean2.drop 2).take 2)
      let b := parseIntHexChars ((clean2.drop 4).take 2)
      jsNumStr r ++ ", " ++ jsNumStr g ++ ", " ++ jsNumStr b

/-- Model of `hexToRgbValues` (lines 46-67).  `none` models a non-string argument
(`null`/`undefined`), for which `!hex || typeof hex !== 'string'` returns the
fallback; the empty string is falsy and takes the same branch. -/
def hexToRgbValues : Option String → String
  | none => "0, 0, 0"
  | some s => hexToRgbChars s.data

/-- One pass of the global regex replace
`str.replace(/([a-z0-9])([A-Z])/g, '$1-$2')` (line 103): a hyphen is
inserted between a lowercase/digit character and a following uppercase
character, and the match consumes both characters. -/
def kebabChars : List Char → List Char
  | [] => []
  | [c] => [c]
  | c1 :: c2 :: rest =>
    if (c1.isLower || c1.isDigit) && c2.isUpper then c1 :: '-' :: c2 :: kebabChars rest
    else c1 :: kebabChars (c2 :: rest)

/-- Model of `toKebabCase` (lines 102-104): hyphen insertion followed by
`toLowerCase()` (modelled per-character; all role names are ASCII). -/
def toKebabCase (s : String) : String :=
  String.mk ((kebabChars s.data).map Char.toLower)

/-- Model of the global hyphen-to-space replace on `roleKebab`
used in the emitted CSS comments (lines 151, 154, 179). -/
def dashToSpace (s : String) : String :=
  String.mk (s.data.map (fun c => if c = '-' then ' ' else c))

/-- Model of `KEYS_TO_SKIP` (lines 30-33): roles that get no tonal palette. -/
def KEYS_TO_SKIP : List String :=
  ["background", "surface", "surfaceTint", "shadow", "scrim",
   "outline", "outlineVariant", "surfaceDim", "surfaceBright"]

/-- The fixed shade list (line 80). -/
def SHADES : List Nat := [50, 100, 200, 300, 400, 500, 600, 700, 800, 900, 950]

/-- Model of `createTonalPaletteFrom100` (lines 77-93).  `lighterScale base` stands
for `chroma.scale(['#FFFFFF', base]).mode('lch').colors(3)` and
`darkerScale base` for
`chroma.scale([base, '#09090b']).mode('lch').padding([0.1, 0.25]).colors(10)`;
`Except.error` models a thrown exception, which the JS `catch` turns into a
`null` (here `none`) result after logging.  `colors(3)[1]` is JS array
indexing (yielding `undefined`, here `none` inside the entry, when out of
range), `.slice(1)` is `List.drop 1`, and the `shades.forEach` assignment
loop together with the ascending integer-key enumeration order of the
resulting JS object is modelled by the association list in `SHADES` order. -/
def createTonalPaletteFrom100 {α : Type} (lighterScale darkerScale : α → Except Unit (List α))
    (base : α) : Option (List (Nat × Option α)) :=
  match lighterScale base, darkerScale base with
  | Except.ok lcolors, Except.ok dcolors =>
      let lighterShade : Option α := lcolors[1]?
      let darkerShades : List α := dcolors.drop 1
      let generatedColors : List (Option α) := lighterShade :: some base :: darkerShades.map some
      some (SHADES.enum.map (fun p => (p.2, (generatedColors[p.1]?).join)))
  | _, _ => none

/-- Lines pushed onto `cssRawVarsOutput` for one light-scheme role
(lines 146-168): the role comment, the locked base-color declaration, and —
when the role is not in `KEYS_TO_SKIP` and the palette was generated —
one `--md-sys-color-<role-kebab>-<shade>` declaration per palette entry,
enumerated in the palette's ascending-key order. -/
def perRoleLightRaw (lighterScale darkerScale : String → Except Unit (List String))
    (rv : String × String) : List String :=
  let roleKebab := toKebabCase rv.1
  ["\n  /* --- " ++ dashToSpace roleKebab ++ " --- */",
   "  --md-sys-color-" ++ roleKebab ++ ": " ++ hexToRgbValues (some rv.2) ++ "; /* Locked Color */"]
  ++ (if rv.1 ∈ KEYS_TO_SKIP then []
      else match createTonalPaletteFrom100 lighterScale darkerScale rv.2 with
        | none => []
        | some pal => pal.map (fun p =>
            "  --md-sys-color-" ++ roleKebab ++ "-" ++ toString p.1 ++ ": "
              ++ hexToRgbValues p.2 ++ ";"))

/-- Lines pushed onto `themeRegistrationOutput` for one light-scheme role
(lines 154-155 and 164): the role comment, the `--color-<role-kebab>`
registration, and the shade registrations for a generated palette. -/
def perRoleLightTheme (lighterScale darkerScale : String → Except Unit (List String))
    (rv : String × String) : List String :=
  let roleKebab := toKebabCase rv.1
  ["\n  /* " ++ dashToSpace roleKebab ++ " */",
   "  --color-" ++ roleKebab ++ ": var(--md-sys-color-" ++ roleKebab ++ "); /* Locked Color */"]
  ++ (if rv.1 ∈ KEYS_TO_SKIP then []
      else match createTonalPaletteFrom100 lighterScale darkerScale rv.2 with
        | none => []
        | some pal => pal.map (fun p =>
            "  --color-" ++ roleKebab ++ "-" ++ toString p.1 ++ ": var(--md-sys-color-"
              ++ roleKebab ++ "-" ++ toString p.1 ++ ");"))

/-- Lines pushed onto `cssRawVarsOutput` for one dark-scheme role
(lines 174-192); same structure as the light loop at deeper indentation,
and the dark loop pushes nothing onto `themeRegistrationOutput`. -/
def perRoleDarkRaw (lighterScale darkerScale : String → Except Unit (List String))
    (rv : String × String) : List String :=
  let roleKebab := toKebabCase rv.1
  ["\n    /* --- " ++ dashToSpace roleKebab ++ " --- */",
   "    --md-sys-color-" ++ roleKebab ++ ": " ++ hexToRgbValues (some rv.2) ++ "; /* Locked Color */"]
  ++ (if rv.1 ∈ KEYS_TO_SKIP then []
      else match createTonalPaletteFrom100 lighterScale darkerScale rv.2 with
        | none => []
        | some pal => pal.map (fun p =>
            "    --md-sys-color-" ++ roleKebab ++ "-" ++ toString p.1 ++ ": "
              ++ hexToRgbValues p.2 ++ ";"))

/-- The 66-character banner of equals signs used in the emitted CSS comment
separators (lines 141, 143, 201, 203). -/
def eqBanner : String := String.mk (List.replicate 66 (Char.ofNat 61))

/-- The separator comment between raw variables and the registration block
(lines 201-203). -/
def registrationSeparator : List String :=
  ["/* " ++ eqBanner ++ " */",
   "/* TOKEN REGISTRATION FOR TAILWIND v4 @theme                    */",
   "/* " ++ eqBanner ++ " */"]

/-- The CSS text produced by the `action` callback (lines 131-209) as a list
of lines, given the parsed scheme objects `light` and `dark` as association
lists in their JS enumeration order.  `cssRawVarsOutput` collects the
header, the `:root` block over the light roles, and the dark media-query
block; `themeRegistrationOutput` is filled only inside the light loop; the
final output concatenates them around `registrationSeparator`
(lines 199-205).  File I/O and console logging around this computation are
outside the embedding. -/
def action (lighterScale darkerScale : String → Except Unit (List String))
    (light dark : List (String × String)) : List String :=
  let cssRawVarsOutput : List String :=
    ["/* " ++ eqBanner ++ " */",
     "/* MATERIAL DESIGN COLOR TOKENS (LIGHT & DARK)                  */",
     "/* " ++ eqBanner ++ " */\n",
     ":root \x7b"]
    ++ (light.map (perRoleLightRaw lighterScale darkerScale)).flatten
    ++ ["\x7d\n",
        "@media (prefers-color-scheme: dark) \x7b",
        "  :root \x7b"]
    ++ (dark.map (perRoleDarkRaw lighterScale darkerScale)).flatten
    ++ ["  \x7d", "\x7d\n"]
  let themeRegistrationOutput : List String :=
    "@theme \x7b" :: (light.map (perRoleLightTheme lighterScale darkerScale)).flatten ++ ["\x7d"]
  cssRawVarsOutput ++ registrationSeparator ++ themeRegistrationOutput

/-- Modelled from the spec: the perceptually uniform interpolation performed
by the external `chroma-js` library (absent from this repository) tracks, on
the lightness channel, a `chroma.scale([start, end]).mode('lch')` sampled by
`colors(n)` at `n` evenly spaced positions of the range padded by the
fractions `padLo` (light end) and `padHi` (dark end): per the spec, equal
position steps give equal perceptual-lightness steps, so the lightness at
position `t` is `Lstart + t * (Lend - Lstart)` with
`t = padLo + (1 - padLo - padHi) * i / (n - 1)`. -/
def specScaleLightness (Lstart Lend padLo padHi : ℚ) (n : ℕ) : Except Unit (List ℚ) :=
  Except.ok ((List.range n).map (fun i =>
    Lstart + (padLo + (1 - padLo - padHi) * (i : ℚ) / ((n : ℚ) - 1)) * (Lend - Lstart)))

/-- Modelled from the spec: the lightness channel of
`chroma.scale(['#FFFFFF', base]).mode('lch').colors(3)` (line 81), where
`Lw` is the lightness of pure white and the argument the base lightness. -/
def specLighterScale (Lw : ℚ) : ℚ → Except Unit (List ℚ) :=
  fun Lb => specScaleLightness Lw Lb 0 0 3

/-- Modelled from the spec: the lightness channel of
`chroma.scale([base, '#09090b']).mode('lch').padding([0.1, 0.25]).colors(10)`
(line 82), where `Ld` is the lightness of the near-black endpoint `#09090b`
and the argument the base lightness. -/
def specDarkerScale (Ld : ℚ) : ℚ → Except Unit (List ℚ) :=
  fun Lb => specScaleLightness Lb Ld (1/10) (1/4) 10

/-! ## Helper lemmas -/

lemma hexDigitVal_isSome_range {c : Char} (h : (hexDigitVal c).isSome) :
    (48 ≤ c.toNat ∧ c.toNat ≤ 57) ∨ (97 ≤ c.toNat ∧ c.toNat ≤ 102) ∨
      (65 ≤ c.toNat ∧ c.toNat ≤ 70) := by
  unfold hexDigitVal at h
  split_ifs at h with h1 h2 h3
  · exact Or.inl h1
  · exact Or.inr (Or.inl h2)
  · exact Or.inr (Or.inr h3)
  · simp at h

lemma hexDigitVal_le {c : Char} {v : Nat} (h : hexDigitVal c = some v) : v ≤ 15 := by
  unfold hexDigitVal at h
  split_ifs at h with h1 h2 h3 <;> injection h with hv <;> omega

lemma hexDigit_char_ne {c : Char} (h : (hexDigitVal c).isSome) :
    jsSpace c = false ∧ c ≠ '-' ∧ c ≠ '+' ∧ c ≠ 'x' ∧ c ≠ 'X' ∧ c ≠ '#' := by
  have hr := hexDigitVal_isSome_range h
  refine ⟨?_, ?_, ?_, ?_, ?_, ?_⟩
  · simp only [jsSpace, Bool.or_eq_false_iff, decide_eq_false_iff_not]
    omega
  · rintro rfl; revert hr; decide
  · rintro rfl; revert hr; decide
  · rintro rfl; revert hr; decide
  · rintro rfl; revert hr; decide
  · rintro rfl; revert hr; decide

lemma jsNumStr_natCast (n : Nat) : jsNumStr (some (n : Int)) = toString n := rfl

lemma parseIntHexChars_two {ca cb : Char} {va vb : Nat}
    (ha : hexDigitVal ca = some va) (hb : hexDigitVal cb = some vb) :
    parseIntHexChars [ca, cb] = some ((16 * va + vb : Nat) : Int) := by
  obtain ⟨hsa, hda, hpa, _, _, _⟩ := hexDigit_char_ne (c := ca) (by simp [ha])
  obtain ⟨hsb, _, _, hxb, hXb, _⟩ := hexDigit_char_ne (c := cb) (by simp [hb])
  unfold parseIntHexChars
  simp [List.dropWhile_cons, List.takeWhile_cons, hsa, hda, hpa, hxb, hXb, ha, hb]

lemma hexToRgbChars_of_clean (cs : List Char) {c0 c1 c2 c3 c4 c5 : Char} {v0 v1 v2 v3 v4 v5 : Nat}
    (hne : cs.isEmpty = false) (hclean : cleanHexChars cs = [c0, c1, c2, c3, c4, c5])
    (h0 : hexDigitVal c0 = some v0) (h1 : hexDigitVal c1 = some v1)
    (h2 : hexDigitVal c2 = some v2) (h3 : hexDigitVal c3 = some v3)
    (h4 : hexDigitVal c4 = some v4) (h5 : hexDigitVal c5 = some v5) :
    hexToRgbChars cs
      = toString (16 * v0 + v1) ++ ", " ++ toString (16 * v2 + v3) ++ ", "
        ++ toString (16 * v4 + v5) := by
  unfold hexToRgbChars
  rw [hclean, hne]
  simp only [Bool.false_eq_true, if_false, List.length_cons, List.length_nil]
  norm_num
  rw [parseIntHexChars_two h0 h1, parseIntHexChars_two h2 h3, parseIntHexChars_two h4 h5,
    jsNumStr_natCast, jsNumStr_natCast, jsNumStr_natCast]

lemma palette_ok {α : Type} (lighterScale darkerScale : α → Except Unit (List α))
    (base l0 l1 l2 dk0 dk1 dk2 dk3 dk4 dk5 dk6 dk7 dk8 dk9 : α)
    (hl : lighterScale base = Except.ok [l0, l1, l2])
    (hd : darkerScale base = Except.ok [dk0, dk1, dk2, dk3, dk4, dk5, dk6, dk7, dk8, dk9]) :
    createTonalPaletteFrom100 lighterScale darkerScale base =
      some [(50, some l1), (100, some base), (200, some dk1), (300, some dk2), (400, some dk3),
            (500, some dk4), (600, some dk5), (700, some dk6), (800, some dk7), (900, some dk8),
            (950, some dk9)] := by
  unfold createTonalPaletteFrom100
  rw [hl, hd]
  rfl

lemma specLighterScale_eq (Lw Lb : ℚ) :
    specLighterScale Lw Lb = Except.ok [Lw, (Lw + Lb) / 2, Lb] := by
  unfold specLighterScale specScaleLightness
  rw [show List.range 3 = [0, 1, 2] from rfl]
  simp only [List.map_cons, List.map_nil, Except.ok.injEq, List.cons.injEq, and_true]
  norm_num
  ring

lemma specDarkerScale_eq (Ld Lb : ℚ) :
    specDarkerScale Ld Lb = Except.ok
      [Lb + 18/180 * (Ld - Lb), Lb + 31/180 * (Ld - Lb), Lb + 44/180 * (Ld - Lb),
       Lb + 57/180 * (Ld - Lb), Lb + 70/180 * (Ld - Lb), Lb + 83/180 * (Ld - Lb),
       Lb + 96/180 * (Ld - Lb), Lb + 109/180 * (Ld - Lb), Lb + 122/180 * (Ld - Lb),
       Lb + 135/180 * (Ld - Lb)] := by
  unfold specDarkerScale specScaleLightness
  rw [show List.range 10 = [0, 1, 2, 3, 4, 5, 6, 7, 8, 9] from rfl]
  simp only [List.map_cons, List.map_nil, Except.ok.injEq, List.cons.injEq, and_true]
  norm_num

/-! ## Claim theorems -/

/-- C1: For every base color string accepted by the color library (i.e. both
chroma scale calls return without throwing, whatever lists of colors they
produce), the returned tonal palette maps shade 100 to the input base color
string itself — the very same string value, hence character for character
unchanged, including any leading `#` and letter case. -/
theorem palette_shade100_is_base (lighterScale darkerScale : String → Except Unit (List String))
    (base : String) (L D : List String)
    (hl : lighterScale base = Except.ok L) (hd : darkerScale base = Except.ok D) :
    ∃ pal, createTonalPaletteFrom100 lighterScale darkerScale base = some pal
      ∧ pal.lookup 100 = some (some base) := by
  unfold createTonalPaletteFrom100
  rw [hl, hd]
  refine ⟨_, rfl, ?_⟩
  simp [SHADES, List.lookup]

/-- Witness for `palette_shade100_is_base`, at scales that return fixed
color lists and the base color of the spec's end-to-end example. -/
theorem palette_shade100_is_base_witness :
    ∃ pal, createTonalPaletteFrom100 (fun _ => Except.ok ["#FFFFFF", "#B3A2D2", "#6750A4"])
        (fun _ => Except.ok []) "#6750A4" = some pal
      ∧ pal.lookup 100 = some (some "#6750A4") :=
  palette_shade100_is_base _ _ "#6750A4" ["#FFFFFF", "#B3A2D2", "#6750A4"] [] rfl rfl

/-- C2 counterexample: `"zzzzzz"` is a malformed color value (it contains no
hex digit at all), yet `hexToRgbValues` returns `"NaN, NaN, NaN"` — not
`"0, 0, 0"` — because the cleaned length is 6 and JS `parseInt` yields `NaN`
rather than throwing, so the fallback is never taken. -/
theorem hexToRgb_malformed_not_zero_cex :
    hexToRgbValues (some "zzzzzz") = "NaN, NaN, NaN" ∧
      hexToRgbValues (some "zzzzzz") ≠ "0, 0, 0" := by
  constructor
  · rfl
  · decide

/-- C2 (amended): `hexToRgbValues` never raises (it is a total function),
and for every input that is a non-string (`none`), the empty string, or a
string whose length after stripping an optional leading `#` is neither 3
nor 6, it returns the fallback `"0, 0, 0"`; in particular for `""`, `null`
and `"12"`.  (Length-3/6 inputs containing non-hex characters instead
produce `"NaN"` components, still without raising.) -/
theorem hexToRgb_fallback_zero (h : Option String)
    (hbad : h = none ∨ h = some "" ∨
      ∃ s, h = some s ∧ (cleanHexChars s.data).length ≠ 3 ∧ (cleanHexChars s.data).length ≠ 6) :
    hexToRgbValues h = "0, 0, 0" := by
  rcases hbad with rfl | rfl | ⟨s, rfl, h3, h6⟩
  · rfl
  · rfl
  · show hexToRgbChars s.data = "0, 0, 0"
    cases hcs : s.data with
    | nil => simp [hexToRgbChars]
    | cons c t =>
      rw [hcs] at h3 h6
      simp [hexToRgbChars, h3, h6]

/-- Witness for `hexToRgb_fallback_zero` at the spec's example `"12"`. -/
theorem hexToRgb_fallback_zero_witness :
    ((cleanHexChars "12".data).length ≠ 3 ∧ (cleanHexChars "12".data).length ≠ 6) ∧
      hexToRgbValues (some "12") = "0, 0, 0" :=
  ⟨by decide, hexToRgb_fallback_zero (some "12")
    (Or.inr (Or.inr ⟨"12", rfl, by decide, by decide⟩))⟩

/-- C3: When the two chroma scale calls succeed — `lighterScale` returning
its 3 samples of the white-to-base LCh scale and `darkerScale` its 10
samples of the padded base-to-`#09090b` LCh scale — the palette is exactly
the association list binding the 11 fixed shades: shade 50 to the middle of
the 3 lighter samples, shade 100 to the base, and shades 200-950, in this
order, to the 9 samples remaining after the first of the 10 darker samples
is discarded; its key set is exactly `SHADES`. -/
theorem palette_structure (lighterScale darkerScale : String → Except Unit (List String))
    (base l0 l1 l2 dk0 dk1 dk2 dk3 dk4 dk5 dk6 dk7 dk8 dk9 : String)
    (hl : lighterScale base = Except.ok [l0, l1, l2])
    (hd : darkerScale base = Except.ok [dk0, dk1, dk2, dk3, dk4, dk5, dk6, dk7, dk8, dk9]) :
    createTonalPaletteFrom100 lighterScale darkerScale base =
      some [(50, some l1), (100, some base), (200, some dk1), (300, some dk2), (400, some dk3),
            (500, some dk4), (600, some dk5), (700, some dk6), (800, some dk7), (900, some dk8),
            (950, some dk9)]
    ∧ [(50, some l1), (100, some base), (200, some dk1), (300, some dk2), (400, some dk3),
       (500, some dk4), (600, some dk5), (700, some dk6), (800, some dk7), (900, some dk8),
       (950, some dk9)].map Prod.fst = SHADES :=
  ⟨palette_ok lighterScale darkerScale base l0 l1 l2 dk0 dk1 dk2 dk3 dk4 dk5 dk6 dk7 dk8 dk9 hl hd, rfl⟩

/-- Witness for `palette_structure` at concrete scale outputs. -/
theorem palette_structure_witness :
    createTonalPaletteFrom100 (fun _ => Except.ok ["w", "m", "b"])
        (fun _ => Except.ok ["s0", "s1", "s2", "s3", "s4", "s5", "s6", "s7", "s8", "s9"])
        "#6750A4" =
      some [(50, some "m"), (100, some "#6750A4"), (200, some "s1"), (300, some "s2"),
            (400, some "s3"), (500, some "s4"), (600, some "s5"), (700, some "s6"),
            (800, some "s7"), (900, some "s8"), (950, some "s9")]
    ∧ [(50, some "m"), (100, some "#6750A4"), (200, some "s1"), (300, some "s2"),
       (400, some "s3"), (500, some "s4"), (600, some "s5"), (700, some "s6"),
       (800, some "s7"), (900, some "s8"), (950, some "s9")].map Prod.fst = SHADES :=
  palette_structure _ _ "#6750A4" "w" "m" "b" "s0" "s1" "s2" "s3" "s4" "s5" "s6" "s7" "s8" "s9"
    rfl rfl

/-- C6: For every valid 6-digit hex string, with or without a leading `#`,
`hexToRgbValues` returns `"R, G, B"` where `R`, `G`, `B` are the three
base-16 byte values (hence each at most 255 — and they are naturals, so at
least 0); and a 3-digit hex string expands each digit by duplication, so
`hexToRgbValues "f53" = hexToRgbValues "ff5533"`. -/
theorem hexToRgb_valid6 (c0 c1 c2 c3 c4 c5 : Char) (v0 v1 v2 v3 v4 v5 : Nat)
    (h0 : hexDigitVal c0 = some v0) (h1 : hexDigitVal c1 = some v1)
    (h2 : hexDigitVal c2 = some v2) (h3 : hexDigitVal c3 = some v3)
    (h4 : hexDigitVal c4 = some v4) (h5 : hexDigitVal c5 = some v5) :
    hexToRgbValues (some (String.mk ['#', c0, c1, c2, c3, c4, c5]))
        = hexToRgbValues (some (String.mk [c0, c1, c2, c3, c4, c5]))
    ∧ hexToRgbValues (some (String.mk [c0, c1, c2, c3, c4, c5]))
        = toString (16 * v0 + v1) ++ ", " ++ toString (16 * v2 + v3) ++ ", "
          ++ toString (16 * v4 + v5)
    ∧ 16 * v0 + v1 ≤ 255 ∧ 16 * v2 + v3 ≤ 255 ∧ 16 * v4 + v5 ≤ 255
    ∧ hexToRgbValues (some "f53") = hexToRgbValues (some "ff5533") := by
  obtain ⟨_, _, _, _, _, hh0⟩ := hexDigit_char_ne (c := c0) (by simp [h0])
  have hclean6 : cleanHexChars [c0, c1, c2, c3, c4, c5] = [c0, c1, c2, c3, c4, c5] := by
    simp [cleanHexChars, hh0]
  have hyes : hexToRgbValues (some (String.mk ['#', c0, c1, c2, c3, c4, c5]))
      = hexToRgbChars ('#' :: [c0, c1, c2, c3, c4, c5]) := rfl
  have hno : hexToRgbValues (some (String.mk [c0, c1, c2, c3, c4, c5]))
      = hexToRgbChars [c0, c1, c2, c3, c4, c5] := rfl
  have e1 := hexToRgbChars_of_clean ('#' :: [c0, c1, c2, c3, c4, c5]) rfl rfl
    h0 h1 h2 h3 h4 h5
  have e2 := hexToRgbChars_of_clean [c0, c1, c2, c3, c4, c5] rfl hclean6
    h0 h1 h2 h3 h4 h5
  refine ⟨?_, ?_, ?_, ?_, ?_, by decide⟩
  · rw [hyes, hno, e1, e2]
  · rw [hno, e2]
  · have := hexDigitVal_le h0; have := hexDigitVal_le h1; omega
  · have := hexDigitVal_le h2; have := hexDigitVal_le h3; omega
  · have := hexDigitVal_le h4; have := hexDigitVal_le h5; omega

/-- Witness for `hexToRgb_valid6` at the spec's example color `#6750a4`. -/
theorem hexToRgb_valid6_witness :
    hexToRgbValues (some (String.mk ['#', '6', '7', '5', '0', 'a', '4']))
        = hexToRgbValues (some (String.mk ['6', '7', '5', '0', 'a', '4']))
    ∧ hexToRgbValues (some (String.mk ['6', '7', '5', '0', 'a', '4']))
        = toString (16 * 6 + 7) ++ ", " ++ toString (16 * 5 + 0) ++ ", "
          ++ toString (16 * 10 + 4)
    ∧ 16 * 6 + 7 ≤ 255 ∧ 16 * 5 + 0 ≤ 255 ∧ 16 * 10 + 4 ≤ 255
    ∧ hexToRgbValues (some "f53") = hexToRgbValues (some "ff5533") :=
  hexToRgb_valid6 '6' '7' '5' '0' 'a' '4' 6 7 5 0 10 4 rfl rfl rfl rfl rfl rfl

/-- C4: Under the spec-modelled perceptual-lightness interpolation (white
lightness `Lw`, base lightness `Lb`, near-black lightness `Ld`), for every
non-degenerate base (`Ld < Lb < Lw`) the generated palette is ordered
strictly from lightest at shade 50 to darkest at shade 950: along the
palette each entry is strictly lighter than the next, and in particular the
lightness at shade 50 strictly exceeds the lightness at shade 950. -/
theorem palette_lightness_antitone (Lw Lb Ld : ℚ) (hdb : Ld < Lb) (hbw : Lb < Lw) :
    ∃ pal, createTonalPaletteFrom100 (specLighterScale Lw) (specDarkerScale Ld) Lb = some pal
      ∧ List.Chain' (fun p q : Nat × Option ℚ => ∃ x y, p.2 = some x ∧ q.2 = some y ∧ y < x) pal
      ∧ ∃ a b, pal.lookup 50 = some (some a) ∧ pal.lookup 950 = some (some b) ∧ b < a := by
  have hpal := palette_ok (specLighterScale Lw) (specDarkerScale Ld) Lb _ _ _ _ _ _ _ _ _ _ _ _ _
    (specLighterScale_eq Lw Lb) (specDarkerScale_eq Ld Lb)
  refine ⟨_, hpal, ?_, ?_⟩
  · simp only [List.chain'_cons, List.chain'_singleton, and_true]
    refine ⟨⟨_, _, rfl, rfl, by linarith⟩, ⟨_, _, rfl, rfl, by linarith⟩,
      ⟨_, _, rfl, rfl, by linarith⟩, ⟨_, _, rfl, rfl, by linarith⟩,
      ⟨_, _, rfl, rfl, by linarith⟩, ⟨_, _, rfl, rfl, by linarith⟩,
      ⟨_, _, rfl, rfl, by linarith⟩, ⟨_, _, rfl, rfl, by linarith⟩,
      ⟨_, _, rfl, rfl, by linarith⟩, ⟨_, _, rfl, rfl, by linarith⟩⟩
  · exact ⟨_, _, rfl, rfl, by linarith⟩

/-- Witness for `palette_lightness_antitone` at `Lw = 100`, `Lb = 50`,
`Ld = 4` (roughly the lightness of `#09090b`). -/
theorem palette_lightness_antitone_witness :
    ((4 : ℚ) < 50 ∧ (50 : ℚ) < 100) ∧
    (∃ pal, createTonalPaletteFrom100 (specLighterScale 100) (specDarkerScale 4) 50 = some pal
      ∧ List.Chain' (fun p q : Nat × Option ℚ => ∃ x y, p.2 = some x ∧ q.2 = some y ∧ y < x) pal
      ∧ ∃ a b, pal.lookup 50 = some (some a) ∧ pal.lookup 950 = some (some b) ∧ b < a) :=
  ⟨⟨by norm_num, by norm_num⟩, palette_lightness_antitone 100 50 4 (by norm_num) (by norm_num)⟩

/-- C5 counterexample: under the spec-modelled interpolation with base
lightness 50 and near-black lightness 0, the first of the 10 samples of the
padded darker scale has lightness 45 — the padded range starts at fraction
0.1, so the first sample does not coincide with the base (lightness 50). -/
theorem darker_first_sample_not_base_cex :
    (specDarkerScale 0 50).toOption.bind List.head? = some (45 : ℚ)
    ∧ ¬ (specDarkerScale 0 50).toOption.bind List.head? = some (50 : ℚ) := by
  constructor <;> norm_num [specDarkerScale_eq, Except.toOption]

/-- C5 (amended): the first of the 10 samples of the padded darker scale
lies at padded position 0.1 — strictly between the base and near-black, so
it does not coincide with the base for any non-degenerate base — and it is
this first sample that is discarded: shade 200 receives the second sample,
and the first sample's value appears nowhere in the palette. -/
theorem darker_first_sample_discarded (Lw Lb Ld : ℚ) (hdb : Ld < Lb) (hbw : Lb < Lw) :
    ∃ rest, specDarkerScale Ld Lb = Except.ok ((Lb + 18/180 * (Ld - Lb)) :: rest)
      ∧ Lb + 18/180 * (Ld - Lb) ≠ Lb
      ∧ Ld < Lb + 18/180 * (Ld - Lb)
      ∧ ∃ pal, createTonalPaletteFrom100 (specLighterScale Lw) (specDarkerScale Ld) Lb = some pal
          ∧ pal.lookup 200 = some rest.head?
          ∧ ∀ p ∈ pal, p.2 ≠ some (Lb + 18/180 * (Ld - Lb)) := by
  have hpal := palette_ok (specLighterScale Lw) (specDarkerScale Ld) Lb _ _ _ _ _ _ _ _ _ _ _ _ _
    (specLighterScale_eq Lw Lb) (specDarkerScale_eq Ld Lb)
  refine ⟨_, specDarkerScale_eq Ld Lb, by intro hEq; linarith, by linarith, _, hpal, rfl, ?_⟩
  intro p hp
  simp only [List.mem_cons, List.not_mem_nil, or_false] at hp
  rcases hp with rfl | rfl | rfl | rfl | rfl | rfl | rfl | rfl | rfl | rfl | rfl <;>
    · intro hEq
      simp only [Option.some.injEq] at hEq
      linarith

/-- Witness for `darker_first_sample_discarded` at `Lw = 100`, `Lb = 50`,
`Ld = 4`. -/
theorem darker_first_sample_discarded_witness :
    ((4 : ℚ) < 50 ∧ (50 : ℚ) < 100) ∧
    (∃ rest, specDarkerScale 4 50 = Except.ok (((50 : ℚ) + 18/180 * (4 - 50)) :: rest)
      ∧ (50 : ℚ) + 18/180 * (4 - 50) ≠ 50
      ∧ (4 : ℚ) < 50 + 18/180 * (4 - 50)
      ∧ ∃ pal, createTonalPaletteFrom100 (specLighterScale 100) (specDarkerScale 4) 50 = some pal
          ∧ pal.lookup 200 = some rest.head?
          ∧ ∀ p ∈ pal, p.2 ≠ some ((50 : ℚ) + 18/180 * (4 - 50))) :=
  ⟨⟨by norm_num, by norm_num⟩, darker_first_sample_discarded 100 50 4 (by norm_num) (by norm_num)⟩

/-- C7: If one of the two chroma interpolation calls throws for some base
color, `createTonalPaletteFrom100` catches it and returns `null` (`none`);
the caller then emits, for that role, only the comment and the base-color
declaration — no shade declarations — in the `:root`, dark media-query and
`@theme` outputs, and the enclosing loops continue with the remaining roles
of both schemes (the output for a scheme is the per-role output followed by
the output for all remaining roles).  (The `console.error` log performed in
the JS `catch` is an I/O effect outside this embedding.) -/
theorem palette_failure_skips_shades (lighterScale darkerScale : String → Except Unit (List String))
    (role hexv : String) (rest restD : List (String × String))
    (hfail : lighterScale hexv = Except.error () ∨ darkerScale hexv = Except.error ()) :
    createTonalPaletteFrom100 lighterScale darkerScale hexv = none
    ∧ perRoleLightRaw lighterScale darkerScale (role, hexv)
        = ["\n  /* --- " ++ dashToSpace (toKebabCase role) ++ " --- */",
           "  --md-sys-color-" ++ toKebabCase role ++ ": " ++ hexToRgbValues (some hexv)
             ++ "; /* Locked Color */"]
    ∧ perRoleLightTheme lighterScale darkerScale (role, hexv)
        = ["\n  /* " ++ dashToSpace (toKebabCase role) ++ " */",
           "  --color-" ++ toKebabCase role ++ ": var(--md-sys-color-" ++ toKebabCase role
             ++ "); /* Locked Color */"]
    ∧ perRoleDarkRaw lighterScale darkerScale (role, hexv)
        = ["\n    /* --- " ++ dashToSpace (toKebabCase role) ++ " --- */",
           "    --md-sys-color-" ++ toKebabCase role ++ ": " ++ hexToRgbValues (some hexv)
             ++ "; /* Locked Color */"]
    ∧ (((role, hexv) :: rest).map (perRoleLightRaw lighterScale darkerScale)).flatten
        = perRoleLightRaw lighterScale darkerScale (role, hexv)
          ++ (rest.map (perRoleLightRaw lighterScale darkerScale)).flatten
    ∧ (((role, hexv) :: restD).map (perRoleDarkRaw lighterScale darkerScale)).flatten
        = perRoleDarkRaw lighterScale darkerScale (role, hexv)
          ++ (restD.map (perRoleDarkRaw lighterScale darkerScale)).flatten := by
  have hnone : createTonalPaletteFrom100 lighterScale darkerScale hexv = none := by
    unfold createTonalPaletteFrom100
    rcases hfail with hf | hf
    · rw [hf]
    · rw [hf]
      cases hls : lighterScale hexv <;> rfl
  refine ⟨hnone, ?_, ?_, ?_, by simp, by simp⟩
  · simp [perRoleLightRaw, hnone]
  · simp [perRoleLightTheme, hnone]
  · simp [perRoleDarkRaw, hnone]

/-- Witness for `palette_failure_skips_shades` with a scale that always
throws, on the role `primary` followed by one further role per scheme. -/
theorem palette_failure_skips_shades_witness :
    (createTonalPaletteFrom100 (fun _ => Except.error ()) (fun _ => Except.ok [])
        "#GGGGGG" = none
      ∧ perRoleLightRaw (fun _ => Except.error ()) (fun _ => Except.ok []) ("primary", "#GGGGGG")
          = ["\n  /* --- " ++ dashToSpace (toKebabCase "primary") ++ " --- */",
             "  --md-sys-color-" ++ toKebabCase "primary" ++ ": "
               ++ hexToRgbValues (some "#GGGGGG") ++ "; /* Locked Color */"]
      ∧ perRoleLightTheme (fun _ => Except.error ()) (fun _ => Except.ok []) ("primary", "#GGGGGG")
          = ["\n  /* " ++ dashToSpace (toKebabCase "primary") ++ " */",
             "  --color-" ++ toKebabCase "primary" ++ ": var(--md-sys-color-"
               ++ toKebabCase "primary" ++ "); /* Locked Color */"]
      ∧ perRoleDarkRaw (fun _ => Except.error ()) (fun _ => Except.ok []) ("primary", "#GGGGGG")
          = ["\n    /* --- " ++ dashToSpace (toKebabCase "primary") ++ " --- */",
             "    --md-sys-color-" ++ toKebabCase "primary" ++ ": "
               ++ hexToRgbValues (some "#GGGGGG") ++ "; /* Locked Color */"]
      ∧ ((("primary", "#GGGGGG") :: [("secondary", "#625B71")]).map
            (perRoleLightRaw (fun _ => Except.error ()) (fun _ => Except.ok []))).flatten
          = perRoleLightRaw (fun _ => Except.error ()) (fun _ => Except.ok [])
              ("primary", "#GGGGGG")
            ++ ([("secondary", "#625B71")].map
                 (perRoleLightRaw (fun _ => Except.error ()) (fun _ => Except.ok []))).flatten
      ∧ ((("primary", "#GGGGGG") :: [("tertiary", "#7D5260")]).map
            (perRoleDarkRaw (fun _ => Except.error ()) (fun _ => Except.ok []))).flatten
          = perRoleDarkRaw (fun _ => Except.error ()) (fun _ => Except.ok [])
              ("primary", "#GGGGGG")
            ++ ([("tertiary", "#7D5260")].map
                 (perRoleDarkRaw (fun _ => Except.error ()) (fun _ => Except.ok []))).flatten) :=
  palette_failure_skips_shades (fun _ => Except.error ()) (fun _ => Except.ok [])
    "primary" "#GGGGGG" [("secondary", "#625B71")] [("tertiary", "#7D5260")] (Or.inl rfl)

/-- C8: A role on the skip-list gets no shade declaration anywhere: its
contribution to the light `:root` block, to the `@theme` registration block
and to the dark media-query block is exactly the two-line comment-plus-base
declaration, with no `-<shade>` line. -/
theorem skip_list_roles_no_shade_lines (lighterScale darkerScale : String → Except Unit (List String))
    (role hexv : String) (hskip : role ∈ KEYS_TO_SKIP) :
    perRoleLightRaw lighterScale darkerScale (role, hexv)
        = ["\n  /* --- " ++ dashToSpace (toKebabCase role) ++ " --- */",
           "  --md-sys-color-" ++ toKebabCase role ++ ": " ++ hexToRgbValues (some hexv)
             ++ "; /* Locked Color */"]
    ∧ perRoleLightTheme lighterScale darkerScale (role, hexv)
        = ["\n  /* " ++ dashToSpace (toKebabCase role) ++ " */",
           "  --color-" ++ toKebabCase role ++ ": var(--md-sys-color-" ++ toKebabCase role
             ++ "); /* Locked Color */"]
    ∧ perRoleDarkRaw lighterScale darkerScale (role, hexv)
        = ["\n    /* --- " ++ dashToSpace (toKebabCase role) ++ " --- */",
           "    --md-sys-color-" ++ toKebabCase role ++ ": " ++ hexToRgbValues (some hexv)
             ++ "; /* Locked Color */"] := by
  refine ⟨?_, ?_, ?_⟩
  · simp [perRoleLightRaw, hskip]
  · simp [perRoleLightTheme, hskip]
  · simp [perRoleDarkRaw, hskip]

/-- Witness for `skip_list_roles_no_shade_lines` at the skip-list role
`surface` and the spec's example value. -/
theorem skip_list_roles_no_shade_lines_witness :
    ("surface" ∈ KEYS_TO_SKIP) ∧
    (perRoleLightRaw (fun _ => Except.ok []) (fun _ => Except.ok []) ("surface", "#FFFBFE")
        = ["\n  /* --- " ++ dashToSpace (toKebabCase "surface") ++ " --- */",
           "  --md-sys-color-" ++ toKebabCase "surface" ++ ": "
             ++ hexToRgbValues (some "#FFFBFE") ++ "; /* Locked Color */"]
    ∧ perRoleLightTheme (fun _ => Except.ok []) (fun _ => Except.ok []) ("surface", "#FFFBFE")
        = ["\n  /* " ++ dashToSpace (toKebabCase "surface") ++ " */",
           "  --color-" ++ toKebabCase "surface" ++ ": var(--md-sys-color-"
             ++ toKebabCase "surface" ++ "); /* Locked Color */"]
    ∧ perRoleDarkRaw (fun _ => Except.ok []) (fun _ => Except.ok []) ("surface", "#FFFBFE")
        = ["\n    /* --- " ++ dashToSpace (toKebabCase "surface") ++ " --- */",
           "    --md-sys-color-" ++ toKebabCase "surface" ++ ": "
             ++ hexToRgbValues (some "#FFFBFE") ++ "; /* Locked Color */"]) :=
  ⟨by decide, skip_list_roles_no_shade_lines (fun _ => Except.ok []) (fun _ => Except.ok [])
    "surface" "#FFFBFE" (by decide)⟩

/-- C9: The output of `action` decomposes as the raw-variables part (header,
light `:root` block, dark media-query block) followed by the separator and
the `@theme` registration block, and the `@theme` block is built purely
from the light scheme's per-role registrations (base `--color-*` entries and
their palette-shade entries): replacing the dark scheme by any other leaves
the `@theme` block term unchanged — dark-scheme tonal-palette variables are
written only into the dark media-query block and never registered. -/
theorem theme_block_from_light_only (lighterScale darkerScale : String → Except Unit (List String))
    (light dark dark2 : List (String × String)) :
    action lighterScale darkerScale light dark
      = (["/* " ++ eqBanner ++ " */",
          "/* MATERIAL DESIGN COLOR TOKENS (LIGHT & DARK)                  */",
          "/* " ++ eqBanner ++ " */\n",
          ":root \x7b"]
         ++ (light.map (perRoleLightRaw lighterScale darkerScale)).flatten
         ++ ["\x7d\n", "@media (prefers-color-scheme: dark) \x7b", "  :root \x7b"]
         ++ (dark.map (perRoleDarkRaw lighterScale darkerScale)).flatten
         ++ ["  \x7d", "\x7d\n"])
        ++ registrationSeparator
        ++ ("@theme \x7b" :: (light.map (perRoleLightTheme lighterScale darkerScale)).flatten
            ++ ["\x7d"])
    ∧ action lighterScale darkerScale light dark2
      = (["/* " ++ eqBanner ++ " */",
          "/* MATERIAL DESIGN COLOR TOKENS (LIGHT & DARK)                  */",
          "/* " ++ eqBanner ++ " */\n",
          ":root \x7b"]
         ++ (light.map (perRoleLightRaw lighterScale darkerScale)).flatten
         ++ ["\x7d\n", "@media (prefers-color-scheme: dark) \x7b", "  :root \x7b"]
         ++ (dark2.map (perRoleDarkRaw lighterScale darkerScale)).flatten
         ++ ["  \x7d", "\x7d\n"])
        ++ registrationSeparator
        ++ ("@theme \x7b" :: (light.map (perRoleLightTheme lighterScale darkerScale)).flatten
            ++ ["\x7d"]) :=
  ⟨rfl, rfl⟩

/-- C10: For a non-skipped role whose palette generation succeeds, the 11
shade declarations are emitted in ascending numeric shade order
50, 100, 200, ..., 950 — in the light `:root` lines, the dark media-query
lines and the `@theme` registration lines alike — since the palette
association list enumerates its integer keys in ascending order
(`SHADES` is strictly increasing). -/
theorem shade_lines_ascending (lighterScale darkerScale : String → Except Unit (List String))
    (role hexv l0 l1 l2 dk0 dk1 dk2 dk3 dk4 dk5 dk6 dk7 dk8 dk9 : String)
    (hns : role ∉ KEYS_TO_SKIP)
    (hl : lighterScale hexv = Except.ok [l0, l1, l2])
    (hd : darkerScale hexv = Except.ok [dk0, dk1, dk2, dk3, dk4, dk5, dk6, dk7, dk8, dk9]) :
    perRoleLightRaw lighterScale darkerScale (role, hexv)
        = ["\n  /* --- " ++ dashToSpace (toKebabCase role) ++ " --- */",
           "  --md-sys-color-" ++ toKebabCase role ++ ": " ++ hexToRgbValues (some hexv)
             ++ "; /* Locked Color */"]
          ++ ([(50, some l1), (100, some hexv), (200, some dk1), (300, some dk2), (400, some dk3),
               (500, some dk4), (600, some dk5), (700, some dk6), (800, some dk7), (900, some dk8),
               (950, some dk9)].map (fun p : Nat × Option String =>
                "  --md-sys-color-" ++ toKebabCase role ++ "-" ++ toString p.1 ++ ": "
                  ++ hexToRgbValues p.2 ++ ";"))
    ∧ perRoleDarkRaw lighterScale darkerScale (role, hexv)
        = ["\n    /* --- " ++ dashToSpace (toKebabCase role) ++ " --- */",
           "    --md-sys-color-" ++ toKebabCase role ++ ": " ++ hexToRgbValues (some hexv)
             ++ "; /* Locked Color */"]
          ++ ([(50, some l1), (100, some hexv), (200, some dk1), (300, some dk2), (400, some dk3),
               (500, some dk4), (600, some dk5), (700, some dk6), (800, some dk7), (900, some dk8),
               (950, some dk9)].map (fun p : Nat × Option String =>
                "    --md-sys-color-" ++ toKebabCase role ++ "-" ++ toString p.1 ++ ": "
                  ++ hexToRgbValues p.2 ++ ";"))
    ∧ perRoleLightTheme lighterScale darkerScale (role, hexv)
        = ["\n  /* " ++ dashToSpace (toKebabCase role) ++ " */",
           "  --color-" ++ toKebabCase role ++ ": var(--md-sys-color-" ++ toKebabCase role
             ++ "); /* Locked Color */"]
          ++ ([(50, some l1), (100, some hexv), (200, some dk1), (300, some dk2), (400, some dk3),
               (500, some dk4), (600, some dk5), (700, some dk6), (800, some dk7), (900, some dk8),
               (950, some dk9)].map (fun p : Nat × Option String =>
                "  --color-" ++ toKebabCase role ++ "-" ++ toString p.1 ++ ": var(--md-sys-color-"
                  ++ toKebabCase role ++ "-" ++ toString p.1 ++ ");"))
    ∧ [(50, some l1), (100, some hexv), (200, some dk1), (300, some dk2), (400, some dk3),
       (500, some dk4), (600, some dk5), (700, some dk6), (800, some dk7), (900, some dk8),
       (950, some dk9)].map Prod.fst = SHADES
    ∧ List.Chain' (fun a b : Nat => a < b) SHADES := by
  have hpal := palette_ok lighterScale darkerScale hexv l0 l1 l2 dk0 dk1 dk2 dk3 dk4 dk5 dk6 dk7 dk8 dk9
    hl hd
  refine ⟨?_, ?_, ?_, rfl, by norm_num [SHADES, List.chain'_cons]⟩
  · simp [perRoleLightRaw, hns, hpal]
  · simp [perRoleDarkRaw, hns, hpal]
  · simp [perRoleLightTheme, hns, hpal]

/-- Witness for `shade_lines_ascending` at the role `primary` and concrete
scale outputs. -/
theorem shade_lines_ascending_witness :
    ("primary" ∉ KEYS_TO_SKIP) ∧
    (perRoleLightRaw (fun _ => Except.ok ["w", "m", "b"])
          (fun _ => Except.ok ["s0", "s1", "s2", "s3", "s4", "s5", "s6", "s7", "s8", "s9"])
          ("primary", "#6750A4")
        = ["\n  /* --- " ++ dashToSpace (toKebabCase "primary") ++ " --- */",
           "  --md-sys-color-" ++ toKebabCase "primary" ++ ": "
             ++ hexToRgbValues (some "#6750A4") ++ "; /* Locked Color */"]
          ++ ([(50, some "m"), (100, some "#6750A4"), (200, some "s1"), (300, some "s2"),
               (400, some "s3"), (500, some "s4"), (600, some "s5"), (700, some "s6"),
               (800, some "s7"), (900, some "s8"),
               (950, some "s9")].map (fun p : Nat × Option String =>
                "  --md-sys-color-" ++ toKebabCase "primary" ++ "-" ++ toString p.1 ++ ": "
                  ++ hexToRgbValues p.2 ++ ";"))
    ∧ perRoleDarkRaw (fun _ => Except.ok ["w", "m", "b"])
          (fun _ => Except.ok ["s0", "s1", "s2", "s3", "s4", "s5", "s6", "s7", "s8", "s9"])
          ("primary", "#6750A4")
        = ["\n    /* --- " ++ dashToSpace (toKebabCase "primary") ++ " --- */",
           "    --md-sys-color-" ++ toKebabCase "primary" ++ ": "
             ++ hexToRgbValues (some "#6750A4") ++ "; /* Locked Color */"]
          ++ ([(50, some "m"), (100, some "#6750A4"), (200, some "s1"), (300, some "s2"),
               (400, some "s3"), (500, some "s4"), (600, some "s5"), (700, some "s6"),
               (800, some "s7"), (900, some "s8"),
               (950, some "s9")].map (fun p : Nat × Option String =>
                "    --md-sys-color-" ++ toKebabCase "primary" ++ "-" ++ toString p.1 ++ ": "
                  ++ hexToRgbValues p.2 ++ ";"))
    ∧ perRoleLightTheme (fun _ => Except.ok ["w", "m", "b"])
          (fun _ => Except.ok ["s0", "s1", "s2", "s3", "s4", "s5", "s6", "s7", "s8", "s9"])
          ("primary", "#6750A4")
        = ["\n  /* " ++ dashToSpace (toKebabCase "primary") ++ " */",
           "  --color-" ++ toKebabCase "primary" ++ ": var(--md-sys-color-"
             ++ toKebabCase "primary" ++ "); /* Locked Color */"]
          ++ ([(50, some "m"), (100, some "#6750A4"), (200, some "s1"), (300, some "s2"),
               (400, some "s3"), (500, some "s4"), (600, some "s5"), (700, some "s6"),
               (800, some "s7"), (900, some "s8"),
               (950, some "s9")].map (fun p : Nat × Option String =>
                "  --color-" ++ toKebabCase "primary" ++ "-" ++ toString p.1
                  ++ ": var(--md-sys-color-" ++ toKebabCase "primary" ++ "-" ++ toString p.1
                  ++ ");"))
    ∧ [(50, some "m"), (100, some "#6750A4"), (200, some "s1"), (300, some "s2"),
       (400, some "s3"), (500, some "s4"), (600, some "s5"), (700, some "s6"),
       (800, some "s7"), (900, some "s8"), (950, some "s9")].map Prod.fst = SHADES
    ∧ List.Chain' (fun a b : Nat => a < b) SHADES) :=
  ⟨by decide, shade_lines_ascending (fun _ => Except.ok ["w", "m", "b"])
    (fun _ => Except.ok ["s0", "s1", "s2", "s3", "s4", "s5", "s6", "s7", "s8", "s9"])
    "primary" "#6750A4" "w" "m" "b" "s0" "s1" "s2" "s3" "s4" "s5" "s6" "s7" "s8" "s9"
    (by decide) rfl rfl⟩
